import Mathlib

/-!
Verification of the MPPT-Design control firmware core.

This file gives a shallow embedding, in Lean 4, of the control core of the
Sunscatter MPPT firmware: the supervisory state machine and redline monitor
of `fw/src/main.cpp` (v0.2.0, the `mppt.cpp`-era main), the Perturb and
Observe and Incremental Conductance strategies of `fw/src/mppt/local`, the
PID controller of `pid_controller.cpp`, and the sample filters
(`Filter`, `SmaFilter`, `EmaFilter`, `MedianFilter`).

C++ `float` values are modelled as exact rationals; machine indices as `Nat`.
The C++ heap buffers allocated by `new float[n]` have unspecified initial
contents, so the model takes the initial buffer contents as a parameter.
-/

namespace MPPTDesign

/-- System states of the supervisory state machine (`enum State` in main.cpp). -/
inductive State
  | STOP
  | RUN
  | ERROR
deriving Repr, DecidableEq

/-- Error codes of the redline monitor (`typedef enum Error` in main.cpp). -/
inductive ErrorCode
  | OK
  | INP_UVLO
  | INP_OVLO
  | INP_UILO
  | INP_OILO
  | OUT_UVLO
  | OUT_OVLO
  | OUT_UILO
  | OUT_OILO
  | INP_OUT_INV
  | PWM_ULO
  | PWM_OLO
deriving Repr, DecidableEq

/-- Wire numbering of the error codes, as assigned in the C++ enum. -/
def ErrorCode.code : ErrorCode → ℕ
  | .OK => 0
  | .INP_UVLO => 100
  | .INP_OVLO => 101
  | .INP_UILO => 102
  | .INP_OILO => 103
  | .OUT_UVLO => 104
  | .OUT_OVLO => 105
  | .OUT_UILO => 106
  | .OUT_OILO => 107
  | .INP_OUT_INV => 108
  | .PWM_ULO => 109
  | .PWM_OLO => 110

/-- Redline parameter `MIN_INP_VOLT` (main.cpp v0.2.0). -/
def MIN_INP_VOLT : ℚ := 0
/-- Redline parameter `MAX_INP_VOLT` (main.cpp v0.2.0). -/
def MAX_INP_VOLT : ℚ := 70
/-- Redline parameter `MIN_INP_CURR`. -/
def MIN_INP_CURR : ℚ := 0
/-- Redline parameter `MAX_INP_CURR`. -/
def MAX_INP_CURR : ℚ := 8
/-- Redline parameter `MIN_OUT_VOLT`. -/
def MIN_OUT_VOLT : ℚ := 80
/-- Redline parameter `MAX_OUT_VOLT`. -/
def MAX_OUT_VOLT : ℚ := 130
/-- Redline parameter `MIN_OUT_CURR`. -/
def MIN_OUT_CURR : ℚ := 0
/-- Redline parameter `MAX_OUT_CURR`. -/
def MAX_OUT_CURR : ℚ := 5
/-- Redline parameter `MIN_DUTY`. -/
def MIN_DUTY : ℚ := 1/10
/-- Redline parameter `MAX_DUTY`. -/
def MAX_DUTY : ℚ := 9/10

/-- The `MedianFilter` class of `Filter/MedianFilter.h`: a fixed-capacity
circular buffer (`mDataBuffer` of length `mMaxSamples`), a saturating sample
counter `mNumSamples` and a write index `mIdx`. -/
structure MedianFilter where
  mMaxSamples : ℕ
  mDataBuffer : List ℚ
  mNumSamples : ℕ
  mIdx : ℕ
deriving Repr, DecidableEq

/-- `MedianFilter::MedianFilter(maxSamples)`: allocates a buffer of
`maxSamples` floats (contents unspecified, supplied here as `initialBuffer`)
and zeroes `mIdx` and `mNumSamples`. -/
def MedianFilter.make (maxSamples : ℕ) (initialBuffer : List ℚ) : MedianFilter :=
  { mMaxSamples := maxSamples, mDataBuffer := initialBuffer,
    mNumSamples := 0, mIdx := 0 }

/-- `MedianFilter::addSample`: saturate the counter at `mMaxSamples`, write
the sample at `mIdx`, advance `mIdx` circularly. -/
def MedianFilter.addSample (f : MedianFilter) (sample : ℚ) : MedianFilter :=
  { f with
    mNumSamples := if f.mNumSamples < f.mMaxSamples then f.mNumSamples + 1
                   else f.mNumSamples,
    mDataBuffer := f.mDataBuffer.set f.mIdx sample,
    mIdx := (f.mIdx + 1) % f.mMaxSamples }

/-- `MedianFilter::getMedian(startIdx)`: copy the `mNumSamples`-long window
starting at `startIdx` into a temporary buffer, sort it, and take the middle
element (odd count) or the mean of the two middle elements (even count);
an empty window yields 0. (`std::sort` is modelled by `insertionSort`.) -/
def MedianFilter.getMedian (f : MedianFilter) (startIdx : ℕ) : ℚ :=
  let tempBuffer := (List.range f.mNumSamples).map
    (fun i => f.mDataBuffer.getD ((i + startIdx) % f.mMaxSamples) 0)
  let sorted := tempBuffer.insertionSort (· ≤ ·)
  if f.mNumSamples = 0 then 0
  else if f.mNumSamples % 2 = 0 then
    (sorted.getD (f.mNumSamples / 2) 0 + sorted.getD (f.mNumSamples / 2 - 1) 0) / 2
  else sorted.getD (f.mNumSamples / 2) 0

/-- `MedianFilter::getResult`: compute the window start
`(mIdx - mNumSamples + mMaxSamples) % mMaxSamples` (C++ evaluates this in
`int`; since `mNumSamples ≤ mMaxSamples` it equals the `Nat` expression
`mIdx + mMaxSamples - mNumSamples` used here) and take the median there. -/
def MedianFilter.getResult (f : MedianFilter) : ℚ :=
  f.getMedian ((f.mIdx + f.mMaxSamples - f.mNumSamples) % f.mMaxSamples)

/-- `MedianFilter::clear`. -/
def MedianFilter.clear (f : MedianFilter) : MedianFilter :=
  { f with mNumSamples := 0, mIdx := 0 }

/-- Feed a whole list of samples, first element first. -/
def MedianFilter.addSamples (f : MedianFilter) (samples : List ℚ) : MedianFilter :=
  samples.foldl MedianFilter.addSample f

/-- The statistical median, written from the specification's words: sort the
samples; the middle element for an odd count, the average of the two middle
elements for an even count. Used as the comparison point for the median
filter claim. -/
def medianOfSamples (samples : List ℚ) : ℚ :=
  let sorted := samples.insertionSort (· ≤ ·)
  if samples.length % 2 = 0 then
    (sorted.getD (samples.length / 2) 0 + sorted.getD (samples.length / 2 - 1) 0) / 2
  else sorted.getD (samples.length / 2) 0

/-- The base `Filter` class of `Filter/Filter.h`, a concrete passthrough:
`getResult` returns the last added sample, initially 0. -/
structure Filter where
  mMaxSamples : ℕ
  mCurrentVal : ℚ
deriving Repr, DecidableEq

/-- `Filter::Filter(maxSamples)`. -/
def Filter.make (maxSamples : ℕ) : Filter :=
  { mMaxSamples := maxSamples, mCurrentVal := 0 }

/-- `Filter::addSample`. -/
def Filter.addSample (f : Filter) (val : ℚ) : Filter :=
  { f with mCurrentVal := val }

/-- `Filter::getResult`. -/
def Filter.getResult (f : Filter) : ℚ := f.mCurrentVal

/-- `Filter::clear`. -/
def Filter.clear (f : Filter) : Filter := { f with mCurrentVal := 0 }

/-- The `SmaFilter` class of `Filter/SmaFilter.h`: circular buffer plus a
running sum of the current window. -/
structure SmaFilter where
  mMaxSamples : ℕ
  mDataBuffer : List ℚ
  mNumSamples : ℕ
  mIdx : ℕ
  mSum : ℚ
deriving Repr, DecidableEq

/-- `SmaFilter::SmaFilter(maxSamples)`: buffer contents unspecified,
supplied as `initialBuffer`. -/
def SmaFilter.make (maxSamples : ℕ) (initialBuffer : List ℚ) : SmaFilter :=
  { mMaxSamples := maxSamples, mDataBuffer := initialBuffer,
    mNumSamples := 0, mIdx := 0, mSum := 0 }

/-- `SmaFilter::addSample`: while not yet full, grow the count and the sum;
once full, evict the sample being overwritten from the sum. -/
def SmaFilter.addSample (f : SmaFilter) (sample : ℚ) : SmaFilter :=
  if f.mNumSamples < f.mMaxSamples then
    { f with
      mNumSamples := f.mNumSamples + 1,
      mSum := f.mSum + sample,
      mDataBuffer := f.mDataBuffer.set f.mIdx sample,
      mIdx := (f.mIdx + 1) % f.mMaxSamples }
  else
    { f with
      mSum := f.mSum + sample - f.mDataBuffer.getD f.mIdx 0,
      mDataBuffer := f.mDataBuffer.set f.mIdx sample,
      mIdx := (f.mIdx + 1) % f.mMaxSamples }

/-- `SmaFilter::getResult`: `mSum / mNumSamples`, and 0 for an empty filter. -/
def SmaFilter.getResult (f : SmaFilter) : ℚ :=
  if f.mNumSamples = 0 then 0 else f.mSum / (f.mNumSamples : ℚ)

/-- `SmaFilter::clear`: resets count, index and sum but not the buffer. -/
def SmaFilter.clear (f : SmaFilter) : SmaFilter :=
  { f with mNumSamples := 0, mIdx := 0, mSum := 0 }

/-- Feed a whole list of samples, first element first. -/
def SmaFilter.addSamples (f : SmaFilter) (samples : List ℚ) : SmaFilter :=
  samples.foldl SmaFilter.addSample f

/-- The `EmaFilter` class of `Filter/EmaFilter.h`. -/
structure EmaFilter where
  mMaxSamples : ℕ
  mAvg : ℚ
  mAlpha : ℚ
deriving Repr, DecidableEq

/-- `EmaFilter::EmaFilter(maxSamples, alpha)`: `mAvg = 0`. -/
def EmaFilter.make (maxSamples : ℕ) (alpha : ℚ) : EmaFilter :=
  { mMaxSamples := maxSamples, mAvg := 0, mAlpha := alpha }

/-- `EmaFilter::addSample`: `mAvg = (1-mAlpha)*mAvg + mAlpha*sample`. -/
def EmaFilter.addSample (f : EmaFilter) (sample : ℚ) : EmaFilter :=
  { f with mAvg := (1 - f.mAlpha) * f.mAvg + f.mAlpha * sample }

/-- `EmaFilter::getResult`. -/
def EmaFilter.getResult (f : EmaFilter) : ℚ := f.mAvg

/-- `EmaFilter::clear`. -/
def EmaFilter.clear (f : EmaFilter) : EmaFilter := { f with mAvg := 0 }

/-- Feed the constant sample `v` to the filter `n` times. -/
def EmaFilter.feedConstant (f : EmaFilter) (v : ℚ) : ℕ → EmaFilter
  | 0 => f
  | n + 1 => (f.feedConstant v n).addSample v

/-- The file-scope globals of main.cpp (v0.2.0) touched by the redline
monitor and the state machine: the supervisory state, the three latched
input booleans, the actuation outputs (`pwm_enable`, `pwm_out`), the MPPT
ticker and its remembered previous values, the indicator LEDs, the four
median filters, plus two observables: the error codes reported so far
(printf or `CAN_SS_FAULT`) and the number of `queue.call(&event_update_state_machine)`
requests issued. -/
structure Globals where
  current_state : State
  is_error : Bool
  set_mode : Bool
  ack_fault : Bool
  pwm_enable : Bool
  pwm_out : ℚ
  ticker_mppt_on : Bool
  prev_arr_v : ℚ
  prev_arr_p : ℚ
  led_tracking : Bool
  led_error : Bool
  arr_voltage_filter : MedianFilter
  arr_current_filter : MedianFilter
  batt_voltage_filter : MedianFilter
  batt_current_filter : MedianFilter
  reported : List ErrorCode
  sm_update_calls : ℕ
deriving Repr, DecidableEq

/-- `_assert(condition, code)` of main.cpp: when the condition fails, kill
`pwm_enable` immediately, report the code, latch `is_error` and request a
state machine update; when it holds, do nothing. -/
def _assert (condition : Bool) (code : ErrorCode) (g : Globals) : Globals :=
  if condition then g
  else
    { g with
      pwm_enable := false,
      reported := g.reported ++ [code],
      is_error := true,
      sm_update_calls := g.sm_update_calls + 1 }

/-- `event_check_redlines` of main.cpp (v0.2.0): read the four filtered
measurements and the pwm duty, then run the eleven `_assert` bound checks
in source order. (The source reads `pwm_out` just before the two duty
asserts; `_assert` never writes `pwm_out`, so the value read is `g.pwm_out`.) -/
def event_check_redlines (g : Globals) : Globals :=
  let arr_v_filtered := g.arr_voltage_filter.getResult
  let arr_i_filtered := g.arr_current_filter.getResult
  let batt_v_filtered := g.batt_voltage_filter.getResult
  let batt_i_filtered := g.batt_current_filter.getResult
  let g := _assert (decide (arr_v_filtered ≥ MIN_INP_VOLT)) ErrorCode.INP_UVLO g
  let g := _assert (decide (arr_v_filtered ≤ MAX_INP_VOLT)) ErrorCode.INP_OVLO g
  let g := _assert (decide (arr_i_filtered ≥ MIN_INP_CURR)) ErrorCode.INP_UILO g
  let g := _assert (decide (arr_i_filtered ≤ MAX_INP_CURR)) ErrorCode.INP_OILO g
  let g := _assert (decide (batt_v_filtered ≥ MIN_OUT_VOLT)) ErrorCode.OUT_UVLO g
  let g := _assert (decide (batt_v_filtered ≤ MAX_OUT_VOLT)) ErrorCode.OUT_OVLO g
  let g := _assert (decide (batt_i_filtered ≥ MIN_OUT_CURR)) ErrorCode.OUT_UILO g
  let g := _assert (decide (batt_i_filtered ≤ MAX_OUT_CURR)) ErrorCode.OUT_OILO g
  let g := _assert (decide (arr_v_filtered < batt_v_filtered)) ErrorCode.INP_OUT_INV g
  let pwm := g.pwm_out
  let g := _assert (decide (pwm ≥ MIN_DUTY)) ErrorCode.PWM_ULO g
  let g := _assert (decide (pwm ≤ MAX_DUTY)) ErrorCode.PWM_OLO g
  g

/-- The eleven redline (condition, code) pairs of `event_check_redlines`,
in source order, evaluated against the globals `g`. -/
def redlineChecks (g : Globals) : List (Bool × ErrorCode) :=
  [ (decide (g.arr_voltage_filter.getResult ≥ MIN_INP_VOLT), ErrorCode.INP_UVLO),
    (decide (g.arr_voltage_filter.getResult ≤ MAX_INP_VOLT), ErrorCode.INP_OVLO),
    (decide (g.arr_current_filter.getResult ≥ MIN_INP_CURR), ErrorCode.INP_UILO),
    (decide (g.arr_current_filter.getResult ≤ MAX_INP_CURR), ErrorCode.INP_OILO),
    (decide (g.batt_voltage_filter.getResult ≥ MIN_OUT_VOLT), ErrorCode.OUT_UVLO),
    (decide (g.batt_voltage_filter.getResult ≤ MAX_OUT_VOLT), ErrorCode.OUT_OVLO),
    (decide (g.batt_current_filter.getResult ≥ MIN_OUT_CURR), ErrorCode.OUT_UILO),
    (decide (g.batt_current_filter.getResult ≤ MAX_OUT_CURR), ErrorCode.OUT_OILO),
    (decide (g.arr_voltage_filter.getResult < g.batt_voltage_filter.getResult),
      ErrorCode.INP_OUT_INV),
    (decide (g.pwm_out ≥ MIN_DUTY), ErrorCode.PWM_ULO),
    (decide (g.pwm_out ≤ MAX_DUTY), ErrorCode.PWM_OLO) ]

/-- Run a list of `_assert` checks left to right. -/
def runAsserts (checks : List (Bool × ErrorCode)) (g : Globals) : Globals :=
  checks.foldl (fun g c => _assert c.1 c.2 g) g

/-- `event_update_state_machine` of main.cpp (v0.2.0): the transition
switch (sequential `if` assignments on `current_state`, exactly as in the
source) followed by the entry-action switch on the new state. -/
def event_update_state_machine (g : Globals) : Globals :=
  let g1 :=
    match g.current_state with
    | State.STOP =>
        let cs := if g.set_mode then State.RUN else g.current_state
        let cs := if g.is_error then State.ERROR else cs
        { g with current_state := cs }
    | State.RUN =>
        let cs := if !g.set_mode then State.STOP else g.current_state
        let cs := if g.is_error then State.ERROR else cs
        { g with current_state := cs }
    | State.ERROR =>
        if g.ack_fault then
          { g with is_error := false, ack_fault := false, set_mode := false,
                   current_state := State.STOP }
        else g
  match g1.current_state with
  | State.STOP =>
      { g1 with pwm_enable := false, pwm_out := 1 - 1/2, ticker_mppt_on := false,
                prev_arr_v := 0, prev_arr_p := 0,
                led_tracking := false, led_error := false }
  | State.RUN =>
      { g1 with ticker_mppt_on := true, pwm_enable := true,
                led_tracking := true, led_error := false }
  | State.ERROR =>
      { g1 with pwm_enable := false, pwm_out := 1 - 1/2, ticker_mppt_on := false,
                prev_arr_v := 0, prev_arr_p := 0,
                led_error := true, led_tracking := false }

/-- The `PandO` strategy of `fw/src/mppt/local/pando.hpp`: the context
fields set by `input_context`, the owned `reference_voltage`, and the saved
previous array voltage and power. -/
structure PandO where
  reference_voltage : ℚ
  array_voltage : ℚ
  array_current : ℚ
  battery_voltage : ℚ
  battery_current : ℚ
  prev_array_voltage : ℚ
  prev_array_power : ℚ
deriving Repr, DecidableEq

/-- `PandO::PandO()`: reference and previous values start at 0; the context
fields are uninitialized in C++ and supplied here as parameters. -/
def PandO.make (av ai bv bi : ℚ) : PandO :=
  { reference_voltage := 0, array_voltage := av, array_current := ai,
    battery_voltage := bv, battery_current := bi,
    prev_array_voltage := 0, prev_array_power := 0 }

/-- `PandO::input_context`: store the four filtered measurements. -/
def PandO.input_context (s : PandO) (av ai bv bi : ℚ) : PandO :=
  { s with array_voltage := av, array_current := ai,
           battery_voltage := bv, battery_current := bi }

/-- `PandO::step_algorithm` with `STRIDE` = 0.1: hill-climb on the signs of
the power and voltage deltas, then stash the current voltage and power. -/
def PandO.step_algorithm (s : PandO) : PandO :=
  let array_power := s.array_voltage * s.array_current
  let delta_array_voltage := s.array_voltage - s.prev_array_voltage
  let delta_array_power := array_power - s.prev_array_power
  let ref :=
    if delta_array_power > 0 then
      if delta_array_voltage > 0 then s.reference_voltage + 1/10
      else if delta_array_voltage < 0 then s.reference_voltage - 1/10
      else s.reference_voltage
    else
      if delta_array_voltage > 0 then s.reference_voltage - 1/10
      else if delta_array_voltage < 0 then s.reference_voltage + 1/10
      else s.reference_voltage
  { s with reference_voltage := ref,
           prev_array_voltage := s.array_voltage,
           prev_array_power := array_power }

/-- `PandO::reset_state`. -/
def PandO.reset_state (s : PandO) : PandO :=
  { s with reference_voltage := 0, prev_array_voltage := 0, prev_array_power := 0 }

/-- The `IC` strategy of `fw/src/mppt/local/ic.hpp`. -/
structure IC where
  reference_voltage : ℚ
  array_voltage : ℚ
  array_current : ℚ
  battery_voltage : ℚ
  battery_current : ℚ
  prev_array_voltage : ℚ
  prev_array_current : ℚ
deriving Repr, DecidableEq

/-- `IC::IC()`: context fields supplied as parameters (uninitialized in C++). -/
def IC.make (av ai bv bi : ℚ) : IC :=
  { reference_voltage := 0, array_voltage := av, array_current := ai,
    battery_voltage := bv, battery_current := bi,
    prev_array_voltage := 0, prev_array_current := 0 }

/-- `IC::step_algorithm` with `STRIDE` = 0.1 and `ERROR` = 0.01: compare the
discriminant `delta_I * V + I * delta_V` against the tolerance band, then
stash the current voltage and current. -/
def IC.step_algorithm (s : IC) : IC :=
  let delta_array_current := s.array_current - s.prev_array_current
  let delta_array_voltage := s.array_voltage - s.prev_array_voltage
  let ref :=
    if |delta_array_current * s.array_voltage + s.array_current * delta_array_voltage|
        < 1/100 then
      s.reference_voltage
    else if delta_array_current * s.array_voltage + s.array_current * delta_array_voltage
        > 1/100 then
      s.reference_voltage + 1/10
    else if delta_array_current * s.array_voltage + s.array_current * delta_array_voltage
        < -(1/100) then
      s.reference_voltage - 1/10
    else s.reference_voltage
  { s with reference_voltage := ref,
           prev_array_voltage := s.array_voltage,
           prev_array_current := s.array_current }

/-- `IC::reset_state`. -/
def IC.reset_state (s : IC) : IC :=
  { s with reference_voltage := 0, prev_array_voltage := 0, prev_array_current := 0 }

/-- The `PIDController` class of `pid_controller.cpp`: immutable
configuration {min_output, max_output, p_coeff, i_coeff, d_coeff} and
mutable state {prev_error, sum_error, delta_error}. -/
structure PIDController where
  min_output : ℚ
  max_output : ℚ
  p_coeff : ℚ
  i_coeff : ℚ
  d_coeff : ℚ
  prev_error : ℚ
  sum_error : ℚ
  delta_error : ℚ
deriving Repr, DecidableEq

/-- `PIDController::PIDController(min, max, p, i, d)`. -/
def PIDController.make (min' max' p i d : ℚ) : PIDController :=
  { min_output := min', max_output := max', p_coeff := p, i_coeff := i,
    d_coeff := d, prev_error := 0, sum_error := 0, delta_error := 0 }

/-- `PIDController::step_pid(target, actual)`: accumulate the error terms,
stash `prev_error`, compute the PID output and constrain it, in source
order. Returns the output together with the updated controller. -/
def PIDController.step_pid (c : PIDController) (target actual : ℚ) : ℚ × PIDController :=
  let error := target - actual
  let sum_error := c.sum_error + error
  let delta_error := error - c.prev_error
  let c' := { c with prev_error := error, sum_error := sum_error,
                     delta_error := delta_error }
  let output := c.p_coeff * error + c.i_coeff * sum_error + c.d_coeff * delta_error
  let output := if output < c.min_output then c.min_output else output
  let output := if output > c.max_output then c.max_output else output
  (output, c')

/-- `PIDController::reset_state`. -/
def PIDController.reset_state (c : PIDController) : PIDController :=
  { c with prev_error := 0, sum_error := 0, delta_error := 0 }

/-- The observable effect of a fired redline `code`, relative to the
globals `g0` the tick started from: actuation disabled, `is_error`
latched, `code` reported, and at least one new state-machine update
request enqueued. -/
def Tripped (code : ErrorCode) (g0 g : Globals) : Prop :=
  g.pwm_enable = false ∧ g.is_error = true ∧ code ∈ g.reported ∧
    g0.sm_update_calls < g.sm_update_calls

/-- Coupling invariant between an SMA filter cleared `k` samples ago and a
freshly constructed one fed the same `k` samples: counters, index and sum
agree, and the buffers agree on every slot the running sum can still evict. -/
def SmaAgree (k : ℕ) (s t : SmaFilter) : Prop :=
  s.mMaxSamples = t.mMaxSamples ∧
  s.mDataBuffer.length = s.mMaxSamples ∧
  t.mDataBuffer.length = t.mMaxSamples ∧
  s.mNumSamples = min k s.mMaxSamples ∧
  t.mNumSamples = min k t.mMaxSamples ∧
  s.mIdx = k % s.mMaxSamples ∧
  t.mIdx = k % t.mMaxSamples ∧
  s.mSum = t.mSum ∧
  ∀ j < s.mNumSamples, s.mDataBuffer.getD j 0 = t.mDataBuffer.getD j 0

/-- A concrete globals value whose filtered measurements and duty all sit
inside the redline bounds (each filter holds a single sample). -/
def demoSafeGlobals : Globals :=
  { current_state := State.RUN, is_error := false, set_mode := true,
    ack_fault := false, pwm_enable := true, pwm_out := 1/2,
    ticker_mppt_on := true, prev_arr_v := 0, prev_arr_p := 0,
    led_tracking := true, led_error := false,
    arr_voltage_filter := (MedianFilter.make 10 (List.replicate 10 0)).addSample 50,
    arr_current_filter := (MedianFilter.make 10 (List.replicate 10 0)).addSample 1,
    batt_voltage_filter := (MedianFilter.make 10 (List.replicate 10 0)).addSample 100,
    batt_current_filter := (MedianFilter.make 10 (List.replicate 10 0)).addSample 1,
    reported := [], sm_update_calls := 0 }

/-- A concrete globals value whose filtered array voltage (75 V) exceeds
`MAX_INP_VOLT` = 70 V; all other channels are in bounds. -/
def demoFaultGlobals : Globals :=
  { demoSafeGlobals with
    arr_voltage_filter := (MedianFilter.make 10 (List.replicate 10 0)).addSample 75 }

/-! ## Theorems -/

/-- CLAIM C1: for every current state in {STOP, RUN, ERROR} and every
combination of the three latched booleans, one call to
`event_update_state_machine` follows the transition table: STOP goes to RUN
iff `set_mode` and not `is_error`; STOP and RUN go to ERROR iff `is_error`;
RUN goes to STOP iff not `set_mode` and not `is_error`; ERROR goes to STOP
iff `ack_fault`, clearing `is_error`, `ack_fault` and `set_mode`; ERROR with
`ack_fault` false changes neither the state nor any flag. -/
theorem claim_C1_state_machine_table (g : Globals) :
    (g.current_state = State.STOP →
      ((event_update_state_machine g).current_state = State.RUN ↔
        g.set_mode = true ∧ g.is_error = false) ∧
      ((event_update_state_machine g).current_state = State.ERROR ↔
        g.is_error = true) ∧
      ((event_update_state_machine g).current_state = State.STOP ↔
        g.set_mode = false ∧ g.is_error = false)) ∧
    (g.current_state = State.RUN →
      ((event_update_state_machine g).current_state = State.STOP ↔
        g.set_mode = false ∧ g.is_error = false) ∧
      ((event_update_state_machine g).current_state = State.ERROR ↔
        g.is_error = true) ∧
      ((event_update_state_machine g).current_state = State.RUN ↔
        g.set_mode = true ∧ g.is_error = false)) ∧
    (g.current_state = State.ERROR →
      ((event_update_state_machine g).current_state = State.STOP ↔
        g.ack_fault = true) ∧
      (g.ack_fault = true →
        (event_update_state_machine g).is_error = false ∧
        (event_update_state_machine g).ack_fault = false ∧
        (event_update_state_machine g).set_mode = false) ∧
      (g.ack_fault = false →
        (event_update_state_machine g).current_state = State.ERROR ∧
        (event_update_state_machine g).is_error = g.is_error ∧
        (event_update_state_machine g).set_mode = g.set_mode ∧
        (event_update_state_machine g).ack_fault = g.ack_fault)) := by
  rcases g with ⟨cs, ie, sm, af, _, _, _, _, _, _, _, _, _, _, _, _, _⟩
  cases cs <;> cases ie <;> cases sm <;> cases af <;>
    simp [event_update_state_machine]

/-- Witness for C1: in STOP with `set_mode` latched and no error, one
update call moves the machine to RUN. -/
theorem claim_C1_witness :
    ({ current_state := State.STOP, is_error := false, set_mode := true,
       ack_fault := false, pwm_enable := false, pwm_out := 1/2,
       ticker_mppt_on := false, prev_arr_v := 0, prev_arr_p := 0,
       led_tracking := false, led_error := false,
       arr_voltage_filter := MedianFilter.make 10 (List.replicate 10 0),
       arr_current_filter := MedianFilter.make 10 (List.replicate 10 0),
       batt_voltage_filter := MedianFilter.make 10 (List.replicate 10 0),
       batt_current_filter := MedianFilter.make 10 (List.replicate 10 0),
       reported := [], sm_update_calls := 0 } : Globals).current_state
        = State.STOP ∧
    (event_update_state_machine
      { current_state := State.STOP, is_error := false, set_mode := true,
        ack_fault := false, pwm_enable := false, pwm_out := 1/2,
        ticker_mppt_on := false, prev_arr_v := 0, prev_arr_p := 0,
        led_tracking := false, led_error := false,
        arr_voltage_filter := MedianFilter.make 10 (List.replicate 10 0),
        arr_current_filter := MedianFilter.make 10 (List.replicate 10 0),
        batt_voltage_filter := MedianFilter.make 10 (List.replicate 10 0),
        batt_current_filter := MedianFilter.make 10 (List.replicate 10 0),
        reported := [], sm_update_calls := 0 }).current_state = State.RUN :=
  ⟨rfl, ((claim_C1_state_machine_table _).1 rfl).1.mpr ⟨rfl, rfl⟩⟩

/-- `_assert` never writes `pwm_out`. -/
theorem _assert_pwm_out (b : Bool) (c : ErrorCode) (g : Globals) :
    (_assert b c g).pwm_out = g.pwm_out := by
  unfold _assert; split <;> rfl

/-- `_assert` never decreases the number of state-machine update requests. -/
theorem _assert_sm_calls_le (b : Bool) (c : ErrorCode) (g : Globals) :
    g.sm_update_calls ≤ (_assert b c g).sm_update_calls := by
  unfold _assert; split
  · exact le_refl _
  · exact Nat.le_succ _

/-- The literal `_assert` chain of `event_check_redlines` is the left fold
of the eleven (condition, code) pairs. -/
theorem event_check_redlines_eq (g : Globals) :
    event_check_redlines g = runAsserts (redlineChecks g) g := by
  simp only [event_check_redlines, redlineChecks, runAsserts, List.foldl,
    _assert_pwm_out]

/-- A fired redline's effects survive any further `_assert`. -/
theorem Tripped.assert {c : ErrorCode} {g0 g : Globals} (b : Bool) (e : ErrorCode)
    (h : Tripped c g0 g) : Tripped c g0 (_assert b e g) := by
  obtain ⟨h1, h2, h3, h4⟩ := h
  unfold _assert; split
  · exact ⟨h1, h2, h3, h4⟩
  · exact ⟨rfl, rfl, List.mem_append_left _ h3, Nat.lt_succ_of_lt h4⟩

/-- A fired redline's effects survive any further chain of `_assert`s. -/
theorem Tripped.runAsserts {c : ErrorCode} {g0 : Globals}
    (l : List (Bool × ErrorCode)) {g : Globals} (h : Tripped c g0 g) :
    Tripped c g0 (runAsserts l g) := by
  induction l generalizing g with
  | nil => exact h
  | cons hd tl ih => exact ih (h.assert hd.1 hd.2)

/-- Relaxing the base point of `Tripped`. -/
theorem Tripped.mono_base {c : ErrorCode} {g0 g1 s : Globals}
    (hle : g0.sm_update_calls ≤ g1.sm_update_calls) (h : Tripped c g1 s) :
    Tripped c g0 s :=
  ⟨h.1, h.2.1, h.2.2.1, lt_of_le_of_lt hle h.2.2.2⟩

/-- A failed `_assert` disables actuation, latches the error, reports its
code and requests a state-machine update. -/
theorem Tripped.of_assert_false (e : ErrorCode) (g : Globals) :
    Tripped e g (_assert false e g) := by
  refine ⟨rfl, rfl, ?_, Nat.lt_succ_self _⟩
  exact List.mem_append_right _ (List.mem_singleton.mpr rfl)

/-- Any check list containing a failed condition trips its code. -/
theorem runAsserts_tripped {c : ErrorCode} :
    ∀ (l : List (Bool × ErrorCode)) (g : Globals),
      (false, c) ∈ l → Tripped c g (runAsserts l g) := by
  intro l
  induction l with
  | nil => intro g h; cases h
  | cons hd tl ih =>
    intro g h
    rcases List.mem_cons.mp h with heq | htl
    · rw [← heq]
      exact Tripped.runAsserts tl (Tripped.of_assert_false c g)
    · exact (ih (_assert hd.1 hd.2 g) htl).mono_base (_assert_sm_calls_le _ _ _)

/-- A check list whose conditions all hold leaves the globals untouched. -/
theorem runAsserts_no_violation :
    ∀ (l : List (Bool × ErrorCode)) (g : Globals),
      (∀ p ∈ l, p.1 = true) → runAsserts l g = g := by
  intro l
  induction l with
  | nil => intro g _; rfl
  | cons hd tl ih =>
    intro g h
    have hhd : hd.1 = true := h hd (List.mem_cons_self hd tl)
    have : _assert hd.1 hd.2 g = g := by rw [hhd]; rfl
    calc runAsserts (hd :: tl) g = runAsserts tl (_assert hd.1 hd.2 g) := rfl
      _ = runAsserts tl g := by rw [this]
      _ = g := ih g (fun p hp => h p (List.mem_cons_of_mem hd hp))

/-- CLAIM C2: on a redline tick in which some filtered channel lies outside
its configured [min, max] bound, `event_check_redlines` disables actuation,
latches `is_error`, requests a state-machine update, and reports the
`ErrorCode` matching each violated bound; in particular the over-voltage
code is wire number 101. The disable action lands on `pwm_enable = false`
however many bounds fire. -/
theorem claim_C2_redline_failsafe (g : Globals)
    (hviol :
      g.arr_voltage_filter.getResult < MIN_INP_VOLT ∨
      MAX_INP_VOLT < g.arr_voltage_filter.getResult ∨
      g.arr_current_filter.getResult < MIN_INP_CURR ∨
      MAX_INP_CURR < g.arr_current_filter.getResult ∨
      g.batt_voltage_filter.getResult < MIN_OUT_VOLT ∨
      MAX_OUT_VOLT < g.batt_voltage_filter.getResult ∨
      g.batt_current_filter.getResult < MIN_OUT_CURR ∨
      MAX_OUT_CURR < g.batt_current_filter.getResult) :
    (event_check_redlines g).pwm_enable = false ∧
    (event_check_redlines g).is_error = true ∧
    g.sm_update_calls < (event_check_redlines g).sm_update_calls ∧
    (g.arr_voltage_filter.getResult < MIN_INP_VOLT →
      ErrorCode.INP_UVLO ∈ (event_check_redlines g).reported) ∧
    (MAX_INP_VOLT < g.arr_voltage_filter.getResult →
      ErrorCode.INP_OVLO ∈ (event_check_redlines g).reported) ∧
    (g.arr_current_filter.getResult < MIN_INP_CURR →
      ErrorCode.INP_UILO ∈ (event_check_redlines g).reported) ∧
    (MAX_INP_CURR < g.arr_current_filter.getResult →
      ErrorCode.INP_OILO ∈ (event_check_redlines g).reported) ∧
    (g.batt_voltage_filter.getResult < MIN_OUT_VOLT →
      ErrorCode.OUT_UVLO ∈ (event_check_redlines g).reported) ∧
    (MAX_OUT_VOLT < g.batt_voltage_filter.getResult →
      ErrorCode.OUT_OVLO ∈ (event_check_redlines g).reported) ∧
    (g.batt_current_filter.getResult < MIN_OUT_CURR →
      ErrorCode.OUT_UILO ∈ (event_check_redlines g).reported) ∧
    (MAX_OUT_CURR < g.batt_current_filter.getResult →
      ErrorCode.OUT_OILO ∈ (event_check_redlines g).reported) ∧
    ErrorCode.code ErrorCode.INP_OVLO = 101 := by
  have key : ∀ c : ErrorCode, (false, c) ∈ redlineChecks g →
      Tripped c g (event_check_redlines g) := by
    intro c hc
    rw [event_check_redlines_eq]
    exact runAsserts_tripped _ g hc
  have m1 : g.arr_voltage_filter.getResult < MIN_INP_VOLT →
      (false, ErrorCode.INP_UVLO) ∈ redlineChecks g := fun h => by
    simp [redlineChecks, decide_eq_false (not_le.mpr h)]
  have m2 : MAX_INP_VOLT < g.arr_voltage_filter.getResult →
      (false, ErrorCode.INP_OVLO) ∈ redlineChecks g := fun h => by
    simp [redlineChecks, decide_eq_false (not_le.mpr h)]
  have m3 : g.arr_current_filter.getResult < MIN_INP_CURR →
      (false, ErrorCode.INP_UILO) ∈ redlineChecks g := fun h => by
    simp [redlineChecks, decide_eq_false (not_le.mpr h)]
  have m4 : MAX_INP_CURR < g.arr_current_filter.getResult →
      (false, ErrorCode.INP_OILO) ∈ redlineChecks g := fun h => by
    simp [redlineChecks, decide_eq_false (not_le.mpr h)]
  have m5 : g.batt_voltage_filter.getResult < MIN_OUT_VOLT →
      (false, ErrorCode.OUT_UVLO) ∈ redlineChecks g := fun h => by
    simp [redlineChecks, decide_eq_false (not_le.mpr h)]
  have m6 : MAX_OUT_VOLT < g.batt_voltage_filter.getResult →
      (false, ErrorCode.OUT_OVLO) ∈ redlineChecks g := fun h => by
    simp [redlineChecks, decide_eq_false (not_le.mpr h)]
  have m7 : g.batt_current_filter.getResult < MIN_OUT_CURR →
      (false, ErrorCode.OUT_UILO) ∈ redlineChecks g := fun h => by
    simp [redlineChecks, decide_eq_false (not_le.mpr h)]
  have m8 : MAX_OUT_CURR < g.batt_current_filter.getResult →
      (false, ErrorCode.OUT_OILO) ∈ redlineChecks g := fun h => by
    simp [redlineChecks, decide_eq_false (not_le.mpr h)]
  have main : (event_check_redlines g).pwm_enable = false ∧
      (event_check_redlines g).is_error = true ∧
      g.sm_update_calls < (event_check_redlines g).sm_update_calls := by
    rcases hviol with h | h | h | h | h | h | h | h
    · exact ⟨(key _ (m1 h)).1, (key _ (m1 h)).2.1, (key _ (m1 h)).2.2.2⟩
    · exact ⟨(key _ (m2 h)).1, (key _ (m2 h)).2.1, (key _ (m2 h)).2.2.2⟩
    · exact ⟨(key _ (m3 h)).1, (key _ (m3 h)).2.1, (key _ (m3 h)).2.2.2⟩
    · exact ⟨(key _ (m4 h)).1, (key _ (m4 h)).2.1, (key _ (m4 h)).2.2.2⟩
    · exact ⟨(key _ (m5 h)).1, (key _ (m5 h)).2.1, (key _ (m5 h)).2.2.2⟩
    · exact ⟨(key _ (m6 h)).1, (key _ (m6 h)).2.1, (key _ (m6 h)).2.2.2⟩
    · exact ⟨(key _ (m7 h)).1, (key _ (m7 h)).2.1, (key _ (m7 h)).2.2.2⟩
    · exact ⟨(key _ (m8 h)).1, (key _ (m8 h)).2.1, (key _ (m8 h)).2.2.2⟩
  exact ⟨main.1, main.2.1, main.2.2,
    fun h => (key _ (m1 h)).2.2.1, fun h => (key _ (m2 h)).2.2.1,
    fun h => (key _ (m3 h)).2.2.1, fun h => (key _ (m4 h)).2.2.1,
    fun h => (key _ (m5 h)).2.2.1, fun h => (key _ (m6 h)).2.2.1,
    fun h => (key _ (m7 h)).2.2.1, fun h => (key _ (m8 h)).2.2.1, rfl⟩

/-- Witness for C2: with the filtered array voltage at 75 V > 70 V, the
tick kills `pwm_enable`, latches `is_error`, enqueues an update and
reports `INP_OVLO` (wire code 101). -/
theorem claim_C2_witness :
    MAX_INP_VOLT < demoFaultGlobals.arr_voltage_filter.getResult ∧
    (event_check_redlines demoFaultGlobals).pwm_enable = false ∧
    (event_check_redlines demoFaultGlobals).is_error = true ∧
    demoFaultGlobals.sm_update_calls
      < (event_check_redlines demoFaultGlobals).sm_update_calls ∧
    ErrorCode.INP_OVLO ∈ (event_check_redlines demoFaultGlobals).reported := by
  have h : MAX_INP_VOLT < demoFaultGlobals.arr_voltage_filter.getResult := by decide
  have c := claim_C2_redline_failsafe demoFaultGlobals (Or.inr (Or.inl h))
  exact ⟨h, c.1, c.2.1, c.2.2.1, c.2.2.2.2.1 h⟩

/-- CLAIM C10: a redline tick in which every checked bound holds has no
observable effect: `_assert` with a true condition changes nothing, so the
whole of `event_check_redlines` returns the globals — actuation enable,
error latch, reported faults, queued state-machine updates, filters and
all controller state — exactly as they were. -/
theorem claim_C10_no_violation_frame (g : Globals)
    (h1 : MIN_INP_VOLT ≤ g.arr_voltage_filter.getResult)
    (h2 : g.arr_voltage_filter.getResult ≤ MAX_INP_VOLT)
    (h3 : MIN_INP_CURR ≤ g.arr_current_filter.getResult)
    (h4 : g.arr_current_filter.getResult ≤ MAX_INP_CURR)
    (h5 : MIN_OUT_VOLT ≤ g.batt_voltage_filter.getResult)
    (h6 : g.batt_voltage_filter.getResult ≤ MAX_OUT_VOLT)
    (h7 : MIN_OUT_CURR ≤ g.batt_current_filter.getResult)
    (h8 : g.batt_current_filter.getResult ≤ MAX_OUT_CURR)
    (h9 : g.arr_voltage_filter.getResult < g.batt_voltage_filter.getResult)
    (h10 : MIN_DUTY ≤ g.pwm_out)
    (h11 : g.pwm_out ≤ MAX_DUTY) :
    event_check_redlines g = g := by
  rw [event_check_redlines_eq]
  apply runAsserts_no_violation
  intro p hp
  simp only [redlineChecks, List.mem_cons, List.not_mem_nil, or_false] at hp
  rcases hp with rfl | rfl | rfl | rfl | rfl | rfl | rfl | rfl | rfl | rfl | rfl
  · exact decide_eq_true h1
  · exact decide_eq_true h2
  · exact decide_eq_true h3
  · exact decide_eq_true h4
  · exact decide_eq_true h5
  · exact decide_eq_true h6
  · exact decide_eq_true h7
  · exact decide_eq_true h8
  · exact decide_eq_true h9
  · exact decide_eq_true h10
  · exact decide_eq_true h11

/-- Witness for C10: a concrete in-bounds tick returns the globals
unchanged. -/
theorem claim_C10_witness :
    MIN_INP_VOLT ≤ demoSafeGlobals.arr_voltage_filter.getResult ∧
    event_check_redlines demoSafeGlobals = demoSafeGlobals :=
  ⟨by decide,
    claim_C10_no_violation_frame demoSafeGlobals (by decide) (by decide)
      (by decide) (by decide) (by decide) (by decide) (by decide) (by decide)
      (by decide) (by with_unfolding_all decide) (by with_unfolding_all decide)⟩

/-- CLAIM C3: with fixed stride 0.1, `PandO::step_algorithm` changes the
reference voltage by exactly +0.1 when both the power delta and the voltage
delta are positive, by −0.1 when the power delta is positive and the
voltage delta negative, by −0.1 when the power delta is ≤ 0 and the voltage
delta positive, by +0.1 when the power delta is ≤ 0 and the voltage delta
negative, and not at all when the voltage delta is zero — the deltas
comparing the current context's array power and voltage against the values
stashed at the previous step. -/
theorem claim_C3_pando_sign_table (s : PandO) :
    (0 < s.array_voltage * s.array_current - s.prev_array_power →
      0 < s.array_voltage - s.prev_array_voltage →
      s.step_algorithm.reference_voltage = s.reference_voltage + 1/10) ∧
    (0 < s.array_voltage * s.array_current - s.prev_array_power →
      s.array_voltage - s.prev_array_voltage < 0 →
      s.step_algorithm.reference_voltage = s.reference_voltage - 1/10) ∧
    (s.array_voltage * s.array_current - s.prev_array_power ≤ 0 →
      0 < s.array_voltage - s.prev_array_voltage →
      s.step_algorithm.reference_voltage = s.reference_voltage - 1/10) ∧
    (s.array_voltage * s.array_current - s.prev_array_power ≤ 0 →
      s.array_voltage - s.prev_array_voltage < 0 →
      s.step_algorithm.reference_voltage = s.reference_voltage + 1/10) ∧
    (s.array_voltage - s.prev_array_voltage = 0 →
      s.step_algorithm.reference_voltage = s.reference_voltage) := by
  refine ⟨fun hp hv => ?_, fun hp hv => ?_, fun hp hv => ?_, fun hp hv => ?_,
    fun hv => ?_⟩ <;>
  · simp only [PandO.step_algorithm]
    split_ifs <;> first | rfl | (exfalso; linarith)

/-- Witness for C3: array voltage 2 V and current 2 A against previous
voltage 1 V and previous power 0 W is a rising-power, rising-voltage step,
so the reference gains one stride. -/
theorem claim_C3_witness :
    0 < (2:ℚ) * 2 - 0 ∧ 0 < (2:ℚ) - 1 ∧
    (PandO.step_algorithm ⟨0, 2, 2, 100, 1, 1, 0⟩).reference_voltage = 0 + 1/10 :=
  ⟨by with_unfolding_all decide, by with_unfolding_all decide,
    (claim_C3_pando_sign_table ⟨0, 2, 2, 100, 1, 1, 0⟩).1
      (by with_unfolding_all decide) (by with_unfolding_all decide)⟩

/-- CLAIM C5: with stride 0.1 and tolerance 0.01, `IC::step_algorithm`
leaves the reference unchanged when the discriminant
`delta_I * V + I * delta_V` is within the tolerance band, adds 0.1 when it
exceeds 0.01, and subtracts 0.1 when it is below −0.01 — the deltas taken
against the previous step's stored current and voltage. -/
theorem claim_C5_ic_discriminant (s : IC) :
    (|(s.array_current - s.prev_array_current) * s.array_voltage
        + s.array_current * (s.array_voltage - s.prev_array_voltage)| < 1/100 →
      s.step_algorithm.reference_voltage = s.reference_voltage) ∧
    (1/100 < (s.array_current - s.prev_array_current) * s.array_voltage
        + s.array_current * (s.array_voltage - s.prev_array_voltage) →
      s.step_algorithm.reference_voltage = s.reference_voltage + 1/10) ∧
    ((s.array_current - s.prev_array_current) * s.array_voltage
        + s.array_current * (s.array_voltage - s.prev_array_voltage) < -(1/100) →
      s.step_algorithm.reference_voltage = s.reference_voltage - 1/10) := by
  refine ⟨fun h => ?_, fun h => ?_, fun h => ?_⟩ <;>
  · simp only [IC.step_algorithm]
    split_ifs <;>
      first
        | rfl
        | (exfalso; rw [abs_lt] at *; linarith)

/-- Witness for C5: current delta 1 A at 2 V and 2 A at voltage delta 1 V
gives discriminant 4 > 0.01, so the reference gains one stride. -/
theorem claim_C5_witness :
    1/100 < ((2:ℚ) - 1) * 2 + 2 * ((2:ℚ) - 1) ∧
    (IC.step_algorithm ⟨0, 2, 2, 100, 1, 1, 1⟩).reference_voltage = 0 + 1/10 :=
  ⟨by with_unfolding_all decide,
    (claim_C5_ic_discriminant ⟨0, 2, 2, 100, 1, 1, 1⟩).2.1
      (by with_unfolding_all decide)⟩

/-- CLAIM C4: `step_pid` computes `error = target - actual`, accumulates
`sum_error`, takes `delta_error = error - prev_error`, returns the PID sum
clamped to [min_output, max_output] — in particular the return value never
lies outside that interval — and stores `prev_error = error` for the next
call. (The clamp reading assumes the configured `min_output ≤ max_output`.) -/
theorem claim_C4_pid_clamp (c : PIDController) (target actual : ℚ)
    (h : c.min_output ≤ c.max_output) :
    (c.step_pid target actual).1 =
      max c.min_output (min (c.p_coeff * (target - actual)
        + c.i_coeff * (c.sum_error + (target - actual))
        + c.d_coeff * ((target - actual) - c.prev_error)) c.max_output) ∧
    c.min_output ≤ (c.step_pid target actual).1 ∧
    (c.step_pid target actual).1 ≤ c.max_output ∧
    (c.step_pid target actual).2.prev_error = target - actual ∧
    (c.step_pid target actual).2.sum_error = c.sum_error + (target - actual) ∧
    (c.step_pid target actual).2.delta_error = (target - actual) - c.prev_error := by
  simp only [PIDController.step_pid]
  split_ifs with h1 h2 h3 <;>
    refine ⟨?_, ?_, ?_, by trivial, by trivial, by trivial⟩ <;>
    first
      | linarith
      | (simp only [max_def, min_def]; split_ifs <;> linarith)

/-- Witness for C4: with unit proportional gain, bounds [0, 1] and error 3,
the raw output 3 clamps to the upper bound. -/
theorem claim_C4_witness :
    (0:ℚ) ≤ 1 ∧
    (0:ℚ) ≤ (PIDController.step_pid ⟨0, 1, 1, 0, 0, 0, 0, 0⟩ 5 2).1 ∧
    (PIDController.step_pid ⟨0, 1, 1, 0, 0, 0, 0, 0⟩ 5 2).1 ≤ 1 :=
  ⟨by decide,
    (claim_C4_pid_clamp ⟨0, 1, 1, 0, 0, 0, 0, 0⟩ 5 2 (by decide)).2.1,
    (claim_C4_pid_clamp ⟨0, 1, 1, 0, 0, 0, 0, 0⟩ 5 2 (by decide)).2.2.1⟩

/-- CLAIM C7: every filter variant returns a defined default from
`getResult` before any sample has been added: 0 for the passthrough, the
SMA (whose zero-count division guard returns 0 rather than dividing), the
EMA (its initial estimate) and the median filter (whose empty window is
never read). -/
theorem claim_C7_fresh_defaults (C : ℕ) (b : List ℚ) (alpha : ℚ) (hC : 1 ≤ C) :
    (Filter.make C).getResult = 0 ∧
    (SmaFilter.make C b).getResult = 0 ∧
    (EmaFilter.make C alpha).getResult = 0 ∧
    (MedianFilter.make C b).getResult = 0 := by
  refine ⟨rfl, rfl, rfl, ?_⟩
  simp [MedianFilter.getResult, MedianFilter.getMedian, MedianFilter.make]

/-- Witness for C7: capacity 10 with arbitrary buffer contents and EMA
alpha 0.2. -/
theorem claim_C7_witness :
    1 ≤ 10 ∧
    ((Filter.make 10).getResult = 0 ∧
     (SmaFilter.make 10 (List.replicate 10 3)).getResult = 0 ∧
     (EmaFilter.make 10 (1/5)).getResult = 0 ∧
     (MedianFilter.make 10 (List.replicate 10 3)).getResult = 0) :=
  ⟨by decide, claim_C7_fresh_defaults 10 (List.replicate 10 3) (1/5) (by decide)⟩

/-- Feeding samples never changes the EMA's alpha. -/
theorem feedConstant_mAlpha (f : EmaFilter) (v : ℚ) (n : ℕ) :
    (f.feedConstant v n).mAlpha = f.mAlpha := by
  induction n with
  | zero => rfl
  | succ n ih => simp [EmaFilter.feedConstant, EmaFilter.addSample, ih]

/-- One EMA step scales the signed distance to the input by `1 - alpha`. -/
theorem ema_step_dist (g : EmaFilter) (v : ℚ) :
    (g.addSample v).mAvg - v = (1 - g.mAlpha) * (g.mAvg - v) := by
  simp only [EmaFilter.addSample]
  ring

/-- Closed form: after `n` constant samples the distance to the input is
the initial distance scaled by `(1 - alpha) ^ n`. -/
theorem ema_dist_pow (f : EmaFilter) (v : ℚ) (hle : f.mAlpha ≤ 1) (n : ℕ) :
    |(f.feedConstant v n).mAvg - v| = (1 - f.mAlpha) ^ n * |f.mAvg - v| := by
  induction n with
  | zero => simp [EmaFilter.feedConstant]
  | succ n ih =>
    have hstep := ema_step_dist (f.feedConstant v n) v
    rw [feedConstant_mAlpha] at hstep
    have hnn : 0 ≤ 1 - f.mAlpha := by linarith
    calc |(f.feedConstant v (n + 1)).mAvg - v|
        = |(1 - f.mAlpha) * ((f.feedConstant v n).mAvg - v)| := by
          rw [EmaFilter.feedConstant, hstep]
      _ = (1 - f.mAlpha) * |(f.feedConstant v n).mAvg - v| := by
          rw [abs_mul, abs_of_nonneg hnn]
      _ = (1 - f.mAlpha) ^ (n + 1) * |f.mAvg - v| := by rw [ih]; ring

/-- CLAIM C8: for any alpha in (0,1), feeding the constant `v` makes
`getResult` converge monotonically to `v`: each `addSample` multiplies the
distance to `v` by `1 - alpha`, so the distance never increases and drops
below any positive bound after enough steps. -/
theorem claim_C8_ema_convergence (f : EmaFilter) (v : ℚ)
    (h0 : 0 < f.mAlpha) (h1 : f.mAlpha < 1) :
    (∀ n, |(f.feedConstant v (n + 1)).getResult - v|
        = (1 - f.mAlpha) * |(f.feedConstant v n).getResult - v|) ∧
    (∀ n, |(f.feedConstant v (n + 1)).getResult - v|
        ≤ |(f.feedConstant v n).getResult - v|) ∧
    (∀ ε : ℚ, 0 < ε → ∃ N, ∀ n, N ≤ n →
        |(f.feedConstant v n).getResult - v| < ε) := by
  have hle : f.mAlpha ≤ 1 := le_of_lt h1
  have hnn : 0 ≤ 1 - f.mAlpha := by linarith
  have hstep : ∀ n, |(f.feedConstant v (n + 1)).getResult - v|
      = (1 - f.mAlpha) * |(f.feedConstant v n).getResult - v| := by
    intro n
    have h := ema_step_dist (f.feedConstant v n) v
    rw [feedConstant_mAlpha] at h
    show |(f.feedConstant v (n + 1)).mAvg - v|
        = (1 - f.mAlpha) * |(f.feedConstant v n).mAvg - v|
    rw [EmaFilter.feedConstant, h, abs_mul, abs_of_nonneg hnn]
  refine ⟨hstep, fun n => ?_, fun ε hε => ?_⟩
  · rw [hstep n]
    exact mul_le_of_le_one_left (abs_nonneg _) (by linarith)
  · rcases (abs_nonneg (f.mAvg - v)).eq_or_lt with h0' | hpos
    · refine ⟨0, fun n _ => ?_⟩
      show |(f.feedConstant v n).mAvg - v| < ε
      rw [ema_dist_pow f v hle n, ← h0', mul_zero]
      exact hε
    · obtain ⟨N, hN⟩ := exists_pow_lt_of_lt_one (div_pos hε hpos) (by linarith :
        1 - f.mAlpha < 1)
      refine ⟨N, fun n hn => ?_⟩
      show |(f.feedConstant v n).mAvg - v| < ε
      rw [ema_dist_pow f v hle n]
      have hpow : (1 - f.mAlpha) ^ n ≤ (1 - f.mAlpha) ^ N :=
        pow_le_pow_of_le_one hnn (by linarith) hn
      calc (1 - f.mAlpha) ^ n * |f.mAvg - v|
          ≤ (1 - f.mAlpha) ^ N * |f.mAvg - v| :=
            mul_le_mul_of_nonneg_right hpow (abs_nonneg _)
        _ < ε / |f.mAvg - v| * |f.mAvg - v| :=
            mul_lt_mul_of_pos_right hN hpos
        _ = ε := div_mul_cancel₀ ε (ne_of_gt hpos)

/-- Witness for C8: an EMA with alpha 0.2 fed the constant 3 eventually
stays within 1/1000 of 3. -/
theorem claim_C8_witness :
    0 < (EmaFilter.make 10 (1/5)).mAlpha ∧ (EmaFilter.make 10 (1/5)).mAlpha < 1 ∧
    ∃ N, ∀ n, N ≤ n →
      |((EmaFilter.make 10 (1/5)).feedConstant 3 n).getResult - 3| < 1/1000 :=
  ⟨by with_unfolding_all decide, by with_unfolding_all decide,
    (claim_C8_ema_convergence (EmaFilter.make 10 (1/5)) 3
      (by with_unfolding_all decide) (by with_unfolding_all decide)).2.2
      (1/1000) (by with_unfolding_all decide)⟩

/-- Setting the element just past a prefix writes into the suffix. -/
theorem set_append_length {α : Type} (l r : List α) (a : α) :
    (l ++ r).set l.length a = l ++ r.set 0 a := by
  rw [List.set_append]
  simp

/-- Overwriting the head of a dropped suffix. -/
theorem drop_set_zero {α : Type} (b : List α) (k : ℕ) (a : α)
    (h : k < b.length) :
    (b.drop k).set 0 a = a :: b.drop (k + 1) := by
  rw [List.drop_eq_getElem_cons h]
  rfl

/-- Reading a list back off by index. -/
theorem map_getD_range (l : List ℚ) :
    (List.range l.length).map (fun i => l.getD i 0) = l := by
  apply List.ext_getElem
  · simp
  · intro n h1 h2
    simp only [List.getElem_map, List.getElem_range]
    exact List.getD_eq_getElem l 0 h2

/-- Buffer evolution: feeding `l.length ≤ C` samples into a fresh median
filter of capacity `C` writes them in order at the front of the buffer,
leaves the rest of the initial contents, and advances the counter and the
circular index accordingly. -/
theorem medianFilter_addSamples (C : ℕ) (b : List ℚ) (hb : b.length = C) :
    ∀ l : List ℚ, l.length ≤ C →
      (MedianFilter.make C b).addSamples l =
        ⟨C, l ++ b.drop l.length, l.length, l.length % C⟩ := by
  intro l
  induction l using List.reverseRecOn with
  | nil =>
    intro _
    simp [MedianFilter.make, MedianFilter.addSamples]
  | append_singleton l a ih =>
    intro hlen
    have hl : l.length < C := by
      simp only [List.length_append, List.length_singleton] at hlen
      omega
    have ihl := ih (le_of_lt hl)
    have hfold : (MedianFilter.make C b).addSamples (l ++ [a]) =
        ((MedianFilter.make C b).addSamples l).addSample a := by
      simp [MedianFilter.addSamples, List.foldl_append]
    rw [hfold, ihl]
    simp only [MedianFilter.addSample, MedianFilter.mk.injEq]
    refine ⟨by trivial, ?_, ?_, ?_⟩
    · rw [Nat.mod_eq_of_lt hl, set_append_length,
        drop_set_zero b l.length a (by omega)]
      simp
    · rw [if_pos hl]
      simp
    · rw [Nat.mod_eq_of_lt hl]
      simp [Nat.add_mod]

/-- CLAIM C6: for every capacity C ≥ 1 and every nonempty sequence of at
most C samples fed to a freshly constructed median filter, `getResult`
equals the statistical median of exactly those samples — the middle element
of the sorted window for an odd count, the average of the two middle
elements for an even count. -/
theorem claim_C6_median_correct (C : ℕ) (b l : List ℚ) (hb : b.length = C)
    (hC : 1 ≤ C) (hlen : l.length ≤ C) (hpos : 1 ≤ l.length) :
    ((MedianFilter.make C b).addSamples l).getResult = medianOfSamples l := by
  rw [medianFilter_addSamples C b hb l hlen]
  have hstart : (l.length % C + C - l.length) % C = 0 := by
    rcases lt_or_eq_of_le hlen with h | h
    · rw [Nat.mod_eq_of_lt h]
      have : l.length + C - l.length = C := by omega
      rw [this, Nat.mod_self]
    · rw [h, Nat.mod_self]
      have : 0 + C - C = 0 := by omega
      rw [this, Nat.zero_mod]
  have hwin : (List.range l.length).map
      (fun i => (l ++ b.drop l.length).getD ((i + 0) % C) 0) = l := by
    have hcong : ∀ i ∈ List.range l.length,
        (l ++ b.drop l.length).getD ((i + 0) % C) 0 = l.getD i 0 := by
      intro i hi
      have hiC : i < C := lt_of_lt_of_le (List.mem_range.mp hi) hlen
      rw [Nat.add_zero, Nat.mod_eq_of_lt hiC,
        List.getD_append _ _ _ _ (List.mem_range.mp hi)]
    rw [List.map_congr_left hcong, map_getD_range]
  simp only [MedianFilter.getResult, MedianFilter.getMedian, hstart, hwin,
    medianOfSamples]
  rw [if_neg (by omega : ¬ l.length = 0)]

/-- Witness for C6: capacity 3 fed [3, 1, 2] yields the median 2. -/
theorem claim_C6_witness :
    ([(0:ℚ), 0, 0].length = 3 ∧ 1 ≤ 3 ∧ [(3:ℚ), 1, 2].length ≤ 3 ∧
      1 ≤ [(3:ℚ), 1, 2].length) ∧
    ((MedianFilter.make 3 [0, 0, 0]).addSamples [3, 1, 2]).getResult
      = medianOfSamples [3, 1, 2] ∧
    medianOfSamples [(3:ℚ), 1, 2] = 2 :=
  ⟨⟨by decide, by decide, by decide, by decide⟩,
    claim_C6_median_correct 3 [0, 0, 0] [3, 1, 2] (by decide) (by decide)
      (by decide) (by decide),
    by with_unfolding_all decide⟩

/-- Reading back a just-written slot. -/
theorem getD_set_eq {α : Type} (l : List α) (i : ℕ) (a d : α)
    (h : i < l.length) : (l.set i a).getD i d = a := by
  rw [List.getD_eq_getElem?_getD, List.getElem?_set_self h]
  rfl

/-- Reading an untouched slot. -/
theorem getD_set_ne {α : Type} (l : List α) (i j : ℕ) (a d : α)
    (h : i ≠ j) : (l.set i a).getD j d = l.getD j d := by
  rw [List.getD_eq_getElem?_getD, List.getElem?_set_ne h,
    ← List.getD_eq_getElem?_getD]

/-- Stepping a circular index commutes with reducing it. -/
theorem mod_add_one_mod (k C : ℕ) : (k % C + 1) % C = (k + 1) % C := by
  conv_rhs => rw [Nat.add_mod]
  rw [Nat.add_mod (k % C) 1 C, Nat.mod_mod_of_dvd k (dvd_refl C)]

/-- The coupling invariant is preserved by feeding both filters the same
sample. -/
theorem smaAgree_addSample {k : ℕ} {s t : SmaFilter} (h : SmaAgree k s t)
    (a : ℚ) : SmaAgree (k + 1) (s.addSample a) (t.addSample a) := by
  obtain ⟨hmax, hsl, htl, hsn, htn, hsi, hti, hsum, hagree⟩ := h
  by_cases hk : k < s.mMaxSamples
  · -- below capacity: both grow
    have hsn' : s.mNumSamples < s.mMaxSamples := by rw [hsn]; omega
    have htn' : t.mNumSamples < t.mMaxSamples := by rw [htn, ← hmax]; omega
    have hidx : s.mIdx = k := by rw [hsi, Nat.mod_eq_of_lt hk]
    have hidx' : t.mIdx = k := by rw [hti, ← hmax, Nat.mod_eq_of_lt hk]
    have hns : s.mNumSamples = k := by rw [hsn]; omega
    unfold SmaFilter.addSample
    rw [if_pos hsn', if_pos htn']
    refine ⟨hmax, ?_, ?_, ?_, ?_, ?_, ?_, ?_, ?_⟩
    · simpa [List.length_set] using hsl
    · simpa [List.length_set] using htl
    · simp only
      rw [hsn]
      omega
    · simp only
      rw [htn, ← hmax]
      omega
    · simp only
      rw [hsi]
      exact mod_add_one_mod k _
    · simp only
      rw [hti]
      exact mod_add_one_mod k _
    · simp only
      rw [hsum]
    · simp only
      intro j hj
      rcases eq_or_ne j k with heq | hne
      · rw [heq, hidx, hidx', getD_set_eq _ _ _ _ (by rw [hsl]; omega),
          getD_set_eq _ _ _ _ (by rw [htl, ← hmax]; omega)]
      · have h1 : s.mIdx ≠ j := by rw [hidx]; exact fun e => hne e.symm
        have h2 : t.mIdx ≠ j := by rw [hidx']; exact fun e => hne e.symm
        rw [getD_set_ne _ _ _ _ _ h1, getD_set_ne _ _ _ _ _ h2]
        exact hagree j (by omega)
  · -- at capacity (or capacity zero): both evict
    have hsn' : ¬ s.mNumSamples < s.mMaxSamples := by rw [hsn]; omega
    have htn' : ¬ t.mNumSamples < t.mMaxSamples := by rw [htn, ← hmax]; omega
    have hidx : t.mIdx = s.mIdx := by rw [hti, ← hmax, hsi]
    have hread : s.mDataBuffer.getD s.mIdx 0 = t.mDataBuffer.getD t.mIdx 0 := by
      rcases Nat.eq_zero_or_pos s.mMaxSamples with hC | hC
      · rw [List.getD_eq_default _ _ (by rw [hsl, hC]; omega),
          List.getD_eq_default _ _ (by rw [htl, ← hmax, hC]; omega)]
      · rw [hidx]
        refine hagree s.mIdx ?_
        rw [hsn, hsi]
        have := Nat.mod_lt k hC
        omega
    unfold SmaFilter.addSample
    rw [if_neg hsn', if_neg htn']
    refine ⟨hmax, ?_, ?_, ?_, ?_, ?_, ?_, ?_, ?_⟩
    · simpa [List.length_set] using hsl
    · simpa [List.length_set] using htl
    · simp only
      rw [hsn]
      omega
    · simp only
      rw [htn, ← hmax]
      omega
    · simp only
      rw [hsi]
      exact mod_add_one_mod k _
    · simp only
      rw [hti]
      exact mod_add_one_mod k _
    · simp only
      rw [hsum, hread]
    · simp only
      intro j hj
      have hjC : j < s.mMaxSamples := by rw [hsn] at hj; omega
      rcases eq_or_ne j s.mIdx with heq | hne
      · rw [heq, getD_set_eq _ _ _ _ (by rw [hsl, ← heq]; omega), hidx,
          getD_set_eq _ _ _ _ (by rw [htl, ← hmax, ← heq]; omega)]
      · have h2 : t.mIdx ≠ j := by rw [hidx]; exact fun e => hne e.symm
        rw [getD_set_ne _ _ _ _ _ (fun e => hne e.symm), getD_set_ne _ _ _ _ _ h2]
        exact hagree j hj

/-- Filters coupled by the invariant stay observationally equal under any
further sample sequence. -/
theorem smaAgree_getResult {k : ℕ} {s t : SmaFilter} (l : List ℚ)
    (h : SmaAgree k s t) :
    (s.addSamples l).getResult = (t.addSamples l).getResult := by
  induction l generalizing k s t with
  | nil =>
    obtain ⟨hmax, _, _, hsn, htn, _, _, hsum, _⟩ := h
    show s.getResult = t.getResult
    unfold SmaFilter.getResult
    rw [hsn, htn, ← hmax, hsum]
  | cons a l ih =>
    show ((s.addSample a).addSamples l).getResult
        = ((t.addSample a).addSamples l).getResult
    exact ih (smaAgree_addSample h a)

/-- CLAIM C9: `SmaFilter::clear` restores observational freshness even
though it leaves the buffer contents in place: after a clear, any sample
sequence produces the same `getResult` as the same sequence fed to a
freshly constructed filter of the same capacity — stale pre-clear entries
are always overwritten before the running sum can evict them. -/
theorem claim_C9_sma_clear_fresh (C : ℕ) (b1 b2 : List ℚ) (n i : ℕ)
    (sum0 : ℚ) (hb1 : b1.length = C) (hb2 : b2.length = C) (l : List ℚ) :
    ((SmaFilter.clear ⟨C, b1, n, i, sum0⟩).addSamples l).getResult =
      ((SmaFilter.make C b2).addSamples l).getResult := by
  apply smaAgree_getResult (k := 0)
  exact ⟨rfl, hb1, hb2, by simp [SmaFilter.clear], by simp [SmaFilter.make],
    by simp [SmaFilter.clear], by simp [SmaFilter.make], rfl,
    fun j hj => by simp [SmaFilter.clear] at hj⟩

/-- Witness for C9: a full dirty filter of capacity 2, cleared, then fed
[1, 2, 3], reads the same as a fresh capacity-2 filter fed [1, 2, 3]. -/
theorem claim_C9_witness :
    ([(5:ℚ), 6].length = 2 ∧ [(7:ℚ), 8].length = 2) ∧
    ((SmaFilter.clear ⟨2, [5, 6], 2, 1, 11⟩).addSamples [1, 2, 3]).getResult =
      ((SmaFilter.make 2 [7, 8]).addSamples [1, 2, 3]).getResult :=
  ⟨⟨by decide, by decide⟩,
    claim_C9_sma_clear_fresh 2 [5, 6] [7, 8] 2 1 11 (by decide) (by decide)
      [1, 2, 3]⟩

end MPPTDesign
